import Mathlib

/-
Verification development for the herbiproof repository.

The repository has two independent services:
  * a record store (src/db/db.py + src/db/app.py): parameterized SQL
    inserts/selects over a SQLite store, invoked from request handlers;
  * a ledger facade (src/pyScripts/blockchain.py): builds, signs and
    submits transactions to an external ledger and reads its state.

Both are embedded shallowly below.  The SQLite store is a record of row
lists plus a counter of issued insert statements; opaque storage failures
are an explicit boolean oracle.  The ledger is a state (next id, crop
mapping, registration mapping) together with oracles for the success of
each external call, so every handler is a pure executable function.
-/

namespace DB

/-- Row of the KYC table (db.py stores status "Pending" and a timestamp). -/
structure KYCRow where
  kyc_id : String
  document_number : String
  verification_status : String
  verified_at : Nat
  deriving DecidableEq

/-- Row of the Farmers table. -/
structure FarmerRow where
  farmer_id : String
  name : String
  location : String
  contact_number : String
  kyc_id : String
  deriving DecidableEq

/-- Row of the Batch table; date and time are filled by the store's clock
at insert time (DATE('now'), TIME('now')) and status is not set by the
insert. -/
structure BatchRow where
  batch_id : String
  type : String
  geotag : String
  farmer_id : String
  date : String
  time : String
  status : Option String
  deriving DecidableEq

/-- Row of the Orders table (column names as in db.py, sic "reciever"). -/
structure OrderRow where
  order_id : String
  order_from : String
  from_id : String
  reciever : String
  reciever_id : String
  batch_id : String
  quantity : Rat
  price : Rat
  deriving DecidableEq

/-- Row of the Ratings table; the score is numeric. -/
structure RatingRow where
  rating_id : String
  consumer_id : String
  farmer_id : String
  rating : Rat
  deriving DecidableEq

/-- The relational store: one list per table used by the claims, plus a
count of insert statements that were issued against the store (issued
means the statement reached the storage engine, whether or not it
succeeded). -/
structure Store where
  kyc : List KYCRow
  farmers : List FarmerRow
  batches : List BatchRow
  orders : List OrderRow
  ratings : List RatingRow
  insertsIssued : Nat
  deriving DecidableEq

/-- Modelled from the spec: the schema file models.sql is not under src/.
Per the spec's data model every entity has a unique identifier, so the
store natively rejects an insert whose key is already present; this and
any opaque storage failure (the storeFail oracle) surface to
execute_update as a raised error.  The first component is the outcome of
the INSERT, the second the store afterwards (the issued counter is bumped
whenever the statement reaches the engine). -/
def insertKYC (storeFail : Bool) (s : Store) (r : KYCRow) :
    Except String Unit × Store :=
  let s1 := { s with insertsIssued := s.insertsIssued + 1 }
  if storeFail then (Except.error "storage error", s1)
  else if s1.kyc.any (fun x => x.kyc_id = r.kyc_id) then
    (Except.error "UNIQUE constraint failed", s1)
  else (Except.ok (), { s1 with kyc := s1.kyc ++ [r] })

/-- INSERT INTO Farmers, same failure model as insertKYC. -/
def insertFarmer (storeFail : Bool) (s : Store) (r : FarmerRow) :
    Except String Unit × Store :=
  let s1 := { s with insertsIssued := s.insertsIssued + 1 }
  if storeFail then (Except.error "storage error", s1)
  else if s1.farmers.any (fun x => x.farmer_id = r.farmer_id) then
    (Except.error "UNIQUE constraint failed", s1)
  else (Except.ok (), { s1 with farmers := s1.farmers ++ [r] })

/-- INSERT INTO Batch, same failure model as insertKYC. -/
def insertBatch (storeFail : Bool) (s : Store) (r : BatchRow) :
    Except String Unit × Store :=
  let s1 := { s with insertsIssued := s.insertsIssued + 1 }
  if storeFail then (Except.error "storage error", s1)
  else if s1.batches.any (fun x => x.batch_id = r.batch_id) then
    (Except.error "UNIQUE constraint failed", s1)
  else (Except.ok (), { s1 with batches := s1.batches ++ [r] })

/-- INSERT INTO Orders, same failure model as insertKYC. -/
def insertOrder (storeFail : Bool) (s : Store) (r : OrderRow) :
    Except String Unit × Store :=
  let s1 := { s with insertsIssued := s.insertsIssued + 1 }
  if storeFail then (Except.error "storage error", s1)
  else if s1.orders.any (fun x => x.order_id = r.order_id) then
    (Except.error "UNIQUE constraint failed", s1)
  else (Except.ok (), { s1 with orders := s1.orders ++ [r] })

/-- INSERT INTO Ratings, same failure model as insertKYC. -/
def insertRating (storeFail : Bool) (s : Store) (r : RatingRow) :
    Except String Unit × Store :=
  let s1 := { s with insertsIssued := s.insertsIssued + 1 }
  if storeFail then (Except.error "storage error", s1)
  else if s1.ratings.any (fun x => x.rating_id = r.rating_id) then
    (Except.error "UNIQUE constraint failed", s1)
  else (Except.ok (), { s1 with ratings := s1.ratings ++ [r] })

/-- DatabaseManager.create_kyc: insert with status "Pending" and the
current time; True on success, any raised storage error is caught and
turned into False (the codomain is Bool, nothing propagates). -/
def create_kyc (storeFail : Bool) (s : Store) (kyc_id document_number : String)
    (now : Nat) : Bool × Store :=
  match insertKYC storeFail s ⟨kyc_id, document_number, "Pending", now⟩ with
  | (Except.ok _, s2) => (true, s2)
  | (Except.error _, s2) => (false, s2)

/-- DatabaseManager.create_farmer: single insert, boolean result, storage
errors caught. -/
def create_farmer (storeFail : Bool) (s : Store)
    (farmer_id name location contact_number kyc_id : String) : Bool × Store :=
  match insertFarmer storeFail s ⟨farmer_id, name, location, contact_number, kyc_id⟩ with
  | (Except.ok _, s2) => (true, s2)
  | (Except.error _, s2) => (false, s2)

/-- DatabaseManager.get_farmer: SELECT * FROM Farmers WHERE farmer_id = ?,
returning the first result or None; a raised query error is caught and
also yields None. -/
def get_farmer (queryFail : Bool) (s : Store) (farmer_id : String) :
    Option FarmerRow :=
  if queryFail then none
  else (s.farmers.filter (fun x => x.farmer_id = farmer_id)).head?

/-- DatabaseManager.create_batch: insert with store-clock date and time
(DATE('now'), TIME('now') passed here as parameters), status unset. -/
def create_batch (storeFail : Bool) (s : Store)
    (batch_id batch_type geotag farmer_id nowDate nowTime : String) :
    Bool × Store :=
  match insertBatch storeFail s
      ⟨batch_id, batch_type, geotag, farmer_id, nowDate, nowTime, none⟩ with
  | (Except.ok _, s2) => (true, s2)
  | (Except.error _, s2) => (false, s2)

/-- DatabaseManager.get_batch: first Batch row with the given id or None;
a raised query error is caught and also yields None. -/
def get_batch (queryFail : Bool) (s : Store) (batch_id : String) :
    Option BatchRow :=
  if queryFail then none
  else (s.batches.filter (fun x => x.batch_id = batch_id)).head?

/-- DatabaseManager.create_order: single insert, boolean result. -/
def create_order (storeFail : Bool) (s : Store)
    (order_id order_from from_id receiver receiver_id batch_id : String)
    (quantity price : Rat) : Bool × Store :=
  match insertOrder storeFail s
      ⟨order_id, order_from, from_id, receiver, receiver_id, batch_id,
        quantity, price⟩ with
  | (Except.ok _, s2) => (true, s2)
  | (Except.error _, s2) => (false, s2)

/-- DatabaseManager.create_rating: the score is range-checked before any
statement is issued; out of range returns False with the store untouched,
otherwise a single insert with caught errors. -/
def create_rating (storeFail : Bool) (s : Store)
    (rating_id consumer_id farmer_id : String) (rating : Rat) : Bool × Store :=
  if ¬ (0 ≤ rating ∧ rating ≤ 5) then (false, s)
  else
    match insertRating storeFail s ⟨rating_id, consumer_id, farmer_id, rating⟩ with
    | (Except.ok _, s2) => (true, s2)
    | (Except.error _, s2) => (false, s2)

end DB

namespace App

/-- JSON body of POST /farmers: dynamic dict access, every field may be
absent.  farmer_id, name and kyc_id are accessed with data[...] (KeyError
when absent); location and contact_number with data.get(..., ""). -/
structure FarmerReq where
  farmer_id : Option String
  name : Option String
  location : Option String
  contact_number : Option String
  kyc_id : Option String
  deriving DecidableEq

/-- JSON body of POST /orders: all eight fields are accessed with
data[...], so all are required. -/
structure OrderReq where
  order_id : Option String
  order_from : Option String
  from_id : Option String
  receiver : Option String
  receiver_id : Option String
  batch_id : Option String
  quantity : Option Rat
  price : Option Rat
  deriving DecidableEq

/-- Response of a record-store write endpoint: a JSON success flag, or
the 500 the framework produces when the handler raises KeyError on a
missing required field. -/
inductive Resp where
  | ok (success : Bool)
  | keyError
  deriving DecidableEq

/-- Handler of POST /farmers (app.py create_farmer): missing required
field raises KeyError before the store is touched. -/
def create_farmer (storeFail : Bool) (s : DB.Store) (data : FarmerReq) :
    Resp × DB.Store :=
  match data.farmer_id, data.name, data.kyc_id with
  | some fid, some nm, some kid =>
      let r := DB.create_farmer storeFail s fid nm
        (data.location.getD "") (data.contact_number.getD "") kid
      (Resp.ok r.1, r.2)
  | _, _, _ => (Resp.keyError, s)

/-- Handler of POST /orders (app.py create_order): all eight fields
required, KeyError on any missing one before the store is touched. -/
def create_order (storeFail : Bool) (s : DB.Store) (data : OrderReq) :
    Resp × DB.Store :=
  match data.order_id, data.order_from, data.from_id, data.receiver,
      data.receiver_id, data.batch_id, data.quantity, data.price with
  | some oid, some ofr, some fi, some rc, some rci, some bid, some q, some p =>
      let r := DB.create_order storeFail s oid ofr fi rc rci bid q p
      (Resp.ok r.1, r.2)
  | _, _, _, _, _, _, _, _ => (Resp.keyError, s)

end App

namespace BC

/-- A crop token as returned by the contract's getCrop: (id, metadata,
owner address). -/
structure Crop where
  id : Nat
  metadata : String
  owner : String
  deriving DecidableEq

/-- Ledger state visible through the contract's view functions. -/
structure Ledger where
  nextId : Nat
  crops : Nat → Crop
  registered : String → Bool

/-- Service configuration: the optional private credential and the
account address derived from it (None when the key is not configured). -/
structure Config where
  privateKey : Option String
  defaultAddress : Option String
  deriving DecidableEq

/-- Chain-side quantities a request can observe: the per-account
transaction count (nonce source), the gas price a query of the chain
would return, and the outcome of broadcast and receipt wait. -/
structure Chain where
  txCount : String → Nat
  gasPriceQuery : Nat
  sendOk : Bool
  receiptOk : Bool
  txHash : String
  receiptGasUsed : Nat
  receiptBlock : Nat

/-- Success oracles for the external .call() reads a handler performs. -/
structure CallOracle where
  regCallOk : Bool
  nextIdCallOk : Bool
  getCropOk : Nat → Bool

/-- Contract functions a transaction can invoke. -/
inductive ContractFn where
  | registerUser
  | createCrop (metadata : String)
  | transferCrop (id : Nat) (toAddr : String)
  deriving DecidableEq

/-- The unsigned transaction dict built in handle_transaction. -/
structure TxDict where
  sender : String
  gas : Nat
  gasPrice : Nat
  nonce : Nat
  fn : ContractFn
  deriving DecidableEq

/-- Observable signing/submission effects of a request. -/
inductive Event where
  | signed (tx : TxDict)
  | submitted (tx : TxDict)
  deriving DecidableEq

/-- Successful transaction result: hash, gas used, block number. -/
structure TxSuccess where
  tx_hash : String
  gas_used : Nat
  block_number : Nat
  deriving DecidableEq

/-- w3.to_wei('20', 'gwei'): a pure unit conversion, 20 * 10^9 wei. -/
def toWei20Gwei : Nat := 20 * 1000000000

/-- Model of Web3.is_address as used by validate_address: 0x-prefixed
40-hex-digit string (the checksum validation Web3 applies to mixed-case
input is abstracted away; no claim depends on it). -/
def isHexDigitChar (c : Char) : Bool :=
  c.isDigit || (65 ≤ c.toNat && c.toNat ≤ 70) || (97 ≤ c.toNat && c.toNat ≤ 102)

/-- validate_address: boolean gate on address format. -/
def is_address (s : String) : Bool :=
  match s.data with
  | c1 :: c2 :: rest =>
      c1 = '0' && c2 = 'x' && rest.length = 40 && rest.all isHexDigitChar
  | _ => false

/-- Python str.lower() on an address string, character by character. -/
def lowerStr (s : String) : String := String.mk (s.data.map Char.toLower)

/-- The zero address literal get_crop compares the owner against. -/
def zeroAddress : String := "0x0000000000000000000000000000000000000000"

/-- tx.build_transaction inside handle_transaction: from the default
address, gas fixed at 3000000, gasPrice the constant 20 gwei, nonce the
account's transaction count fetched now. -/
def build_transaction (cfg : Config) (ch : Chain) (fn : ContractFn) : TxDict :=
  { sender := cfg.defaultAddress.getD ""
    gas := 3000000
    gasPrice := toWei20Gwei
    nonce := ch.txCount (cfg.defaultAddress.getD "")
    fn := fn }

/-- handle_transaction: no configured key fails with 400 before anything
is built; otherwise build, sign, broadcast (broadcast failure caught as
500), wait for the receipt (failure or timeout caught as 500), and on a
confirmed receipt return hash, gas used and block number.  The second
component is the trace of signing/submission effects. -/
def handle_transaction (cfg : Config) (ch : Chain) (fn : ContractFn) :
    Except (String × Nat) TxSuccess × List Event :=
  if cfg.privateKey = none then
    (Except.error ("Private key not configured", 400), [])
  else
    let tx := build_transaction cfg ch fn
    if ch.sendOk then
      if ch.receiptOk then
        (Except.ok ⟨ch.txHash, ch.receiptGasUsed, ch.receiptBlock⟩,
          [Event.signed tx, Event.submitted tx])
      else
        (Except.error ("Transaction failed: no receipt", 500),
          [Event.signed tx, Event.submitted tx])
    else
      (Except.error ("Transaction failed: send", 500), [Event.signed tx])

/-- Body of POST /crops. -/
structure CreateCropReq where
  metadata : Option String
  owner_address : Option String
  deriving DecidableEq

/-- Successful response of POST /crops. -/
structure CreateCropSuccess where
  txres : TxSuccess
  crop_id : Nat
  metadata : String
  owner : String
  deriving DecidableEq

/-- Handler of POST /crops (blockchain.py create_crop): validate input,
check registration, read nextId BEFORE the transaction, then run the
pipeline; on 200 the response carries that pre-read id. -/
def create_crop (cfg : Config) (led : Ledger) (ch : Chain) (oracle : CallOracle)
    (body : Option CreateCropReq) :
    Except (String × Nat) CreateCropSuccess × List Event :=
  match body with
  | none => (Except.error ("Metadata is required", 400), [])
  | some data =>
    match data.metadata with
    | none => (Except.error ("Metadata is required", 400), [])
    | some metadata =>
      match data.owner_address <|> cfg.defaultAddress with
      | none => (Except.error ("Owner address required", 400), [])
      | some owner_address =>
        if ¬ is_address owner_address then
          (Except.error ("Invalid owner address format", 400), [])
        else if ¬ oracle.regCallOk then
          (Except.error ("Failed to check registration", 500), [])
        else if ¬ led.registered owner_address then
          (Except.error ("User must be registered first", 400), [])
        else if ¬ oracle.nextIdCallOk then
          (Except.error ("Failed to get next ID", 500), [])
        else
          let next_id := led.nextId
          match handle_transaction cfg ch (ContractFn.createCrop metadata) with
          | (Except.ok t, evs) =>
              (Except.ok ⟨t, next_id, metadata, owner_address⟩, evs)
          | (Except.error e, evs) => (Except.error e, evs)

/-- Response of GET /crops/{id}. -/
structure CropInfo where
  id : Nat
  metadata : String
  owner : String
  crop_exists : Bool
  deriving DecidableEq

/-- Handler of GET /crops/{id} (blockchain.py get_crop): one contract
read; existence is the owner string differing from the zero address. -/
def get_crop (led : Ledger) (oracle : CallOracle) (crop_id : Nat) :
    Except (String × Nat) CropInfo :=
  if ¬ oracle.getCropOk crop_id then
    Except.error ("Failed to get crop", 500)
  else
    let c := led.crops crop_id
    Except.ok ⟨c.id, c.metadata, c.owner, decide (c.owner ≠ zeroAddress)⟩

/-- Body of POST /crops/{id}/transfer. -/
structure TransferReq where
  to_address : Option String
  from_address : Option String
  deriving DecidableEq

/-- Successful response of POST /crops/{id}/transfer. -/
structure TransferSuccess where
  txres : TxSuccess
  crop_id : Nat
  from_address : String
  to_address : String
  deriving DecidableEq

/-- Handler of POST /crops/{id}/transfer (blockchain.py transfer_crop):
validate both addresses, check the recipient is registered, read the crop
and compare its owner to from_address case-insensitively (mismatch is a
403 with no transaction), then run the pipeline. -/
def transfer_crop (cfg : Config) (led : Ledger) (ch : Chain)
    (oracle : CallOracle) (crop_id : Nat) (body : Option TransferReq) :
    Except (String × Nat) TransferSuccess × List Event :=
  match body with
  | none => (Except.error ("Recipient address is required", 400), [])
  | some data =>
    match data.to_address with
    | none => (Except.error ("Recipient address is required", 400), [])
    | some to_address =>
      if ¬ is_address to_address then
        (Except.error ("Invalid recipient address format", 400), [])
      else
        match data.from_address <|> cfg.defaultAddress with
        | none => (Except.error ("Invalid sender address format", 400), [])
        | some from_address =>
          if ¬ is_address from_address then
            (Except.error ("Invalid sender address format", 400), [])
          else if ¬ oracle.regCallOk then
            (Except.error ("Failed to check recipient registration", 500), [])
          else if ¬ led.registered to_address then
            (Except.error ("Recipient must be registered", 400), [])
          else if ¬ oracle.getCropOk crop_id then
            (Except.error ("Failed to verify ownership", 500), [])
          else if lowerStr (led.crops crop_id).owner ≠ lowerStr from_address then
            (Except.error ("Only the owner can transfer this crop", 403), [])
          else
            match handle_transaction cfg ch
                (ContractFn.transferCrop crop_id to_address) with
            | (Except.ok t, evs) =>
                (Except.ok ⟨t, crop_id, from_address, to_address⟩, evs)
            | (Except.error e, evs) => (Except.error e, evs)

/-- Response of GET /crops/owner/{address}. -/
structure OwnerCropsResp where
  owner : String
  crops : List Crop
  total_found : Nat
  deriving DecidableEq

/-- Handler of GET /crops/owner/{address} (blockchain.py
get_crops_by_owner): cap the supplied limit at 1000 (default 100), read
nextId, then scan ids 0 .. min(nextId, limit) collecting, per id whose
read succeeds, the crops whose owner equals the address up to case. -/
def get_crops_by_owner (led : Ledger) (oracle : CallOracle) (address : String)
    (limitArg : Option Int) : Except (String × Nat) OwnerCropsResp :=
  if ¬ is_address address then Except.error ("Invalid address format", 400)
  else
    let limit : Int := min (limitArg.getD 100) 1000
    if ¬ oracle.nextIdCallOk then
      Except.error ("Failed to get crops by owner", 500)
    else
      let bound : Nat := (min (led.nextId : Int) limit).toNat
      let owned := (List.range bound).filterMap (fun i =>
        if oracle.getCropOk i then
          let c := led.crops i
          if lowerStr c.owner = lowerStr address then some c else none
        else none)
      Except.ok ⟨address, owned, owned.length⟩

/-- Spec-side description of owner enumeration, written after the spec
sentence: walk the ids below the scan bound in order, keep an id exactly
when its read succeeds and the crop's owner equals the queried address
case-insensitively. -/
def ownedCropsSpec (led : Ledger) (oracle : CallOracle) (address : String) :
    Nat → List Crop
  | 0 => []
  | n + 1 =>
      ownedCropsSpec led oracle address n ++
        (if oracle.getCropOk n ∧ lowerStr (led.crops n).owner = lowerStr address
          then [led.crops n] else [])

end BC

/-- Decidable equality of Except results, used to evaluate handlers at
concrete inputs. -/
instance {ε α : Type} [DecidableEq ε] [DecidableEq α] :
    DecidableEq (Except ε α) := fun a b =>
  match a, b with
  | Except.error e1, Except.error e2 =>
      if h : e1 = e2 then Decidable.isTrue (by rw [h])
      else Decidable.isFalse (by intro hc; injection hc; contradiction)
  | Except.error _, Except.ok _ =>
      Decidable.isFalse (by intro hc; exact Except.noConfusion hc)
  | Except.ok _, Except.error _ =>
      Decidable.isFalse (by intro hc; exact Except.noConfusion hc)
  | Except.ok a1, Except.ok a2 =>
      if h : a1 = a2 then Decidable.isTrue (by rw [h])
      else Decidable.isFalse (by intro hc; injection hc; contradiction)

/-! Concrete fixtures used by witnesses and counterexamples. -/

/-- The empty store. -/
def store0 : DB.Store := ⟨[], [], [], [], [], 0⟩

/-- A store holding one farmer and one batch with ids other than the
ones looked up in witnesses. -/
def store1 : DB.Store :=
  ⟨[], [⟨"F2", "Bob", "L", "P", "K2"⟩],
    [⟨"B2", "Rice", "G", "F2", "d", "t", none⟩], [], [], 0⟩

/-- A farmer request missing the required farmer_id. -/
def fd0 : App.FarmerReq := ⟨none, some "Alice", some "L", some "P", some "K1"⟩

/-- An order request missing the required price. -/
def od0 : App.OrderReq :=
  ⟨some "O1", some "Consumer", some "C1", some "Farmer", some "F1",
    some "B1", some 10, none⟩

/-- A well-formed ledger address. -/
def addrA : String := "0xaaaaaaaaaaaaaaaaaaaaaaaaaaaaaaaaaaaaaaaa"

/-- Another well-formed ledger address. -/
def addrB : String := "0xbbbbbbbbbbbbbbbbbbbbbbbbbbbbbbbbbbbbbbbb"

/-- A configuration with a key and default address. -/
def cfgOk : BC.Config := ⟨some "key", some addrA⟩

/-- A chain whose actual gas price is 1 gwei, with nonce 7 for every
account and a successful broadcast and receipt. -/
def chFix : BC.Chain := ⟨fun _ => 7, 1000000000, true, true, "0xhash", 21000, 12⟩

/-- An oracle under which every external call succeeds. -/
def oracleOk : BC.CallOracle := ⟨true, true, fun _ => true⟩

/-- A ledger with two assigned ids: crop 0 owned by addrA, crop 1 unset
(zero owner); only addrA is registered. -/
def led0 : BC.Ledger :=
  ⟨2, fun i => if i = 0 then ⟨0, "m0", addrA⟩ else ⟨i, "", BC.zeroAddress⟩,
    fun a => a == addrA⟩

/-- A transfer request: to addrA, from addrB. -/
def d0 : BC.TransferReq := ⟨some addrA, some addrB⟩

/-! Helper lemmas shared by the claim theorems. -/

/-- If no element of l satisfies p, the first survivor of filtering
l ++ [a] is a itself (when a satisfies p). -/
theorem head_filter_append_of_any_false {α : Type} (p : α → Bool) (l : List α)
    (a : α) (h : l.any p = false) (ha : p a = true) :
    ((l ++ [a]).filter p).head? = some a := by
  rw [List.filter_append]
  have hl : l.filter p = [] := by
    rw [List.filter_eq_nil_iff]
    intro x hx
    have hx2 := List.any_eq_false.mp h x hx
    simpa using hx2
  simp [hl, ha]

/-- C1: a rating creation request is accepted iff the score lies in
[0, 5]: out of range, create_rating returns failure with the store left
untouched (in particular no insert statement is issued); in range and
absent storage failure (no opaque failure, fresh rating id), it returns
success. -/
theorem rating_score_gate (storeFail : Bool) (s : DB.Store)
    (rid cid fid : String) (q : Rat) :
    (¬ (0 ≤ q ∧ q ≤ 5) → DB.create_rating storeFail s rid cid fid q = (false, s))
    ∧ ((∀ r ∈ s.ratings, r.rating_id ≠ rid) →
        ((DB.create_rating false s rid cid fid q).1 = true ↔ (0 ≤ q ∧ q ≤ 5))) := by
  constructor
  · intro h
    simp [DB.create_rating, h]
  · intro hfresh
    constructor
    · intro htrue
      by_contra hq
      simp [DB.create_rating, hq] at htrue
    · intro hq
      have hany : s.ratings.any (fun x => x.rating_id = rid) = false := by
        rw [List.any_eq_false]
        intro x hx
        simpa using hfresh x hx
      simp [DB.create_rating, hq, DB.insertRating, hany]

/-- Witness for rating_score_gate at score 6 (rejected, store untouched)
and score 3 (accepted) on the empty store. -/
theorem rating_score_gate_check :
    DB.create_rating false store0 "R1" "C1" "F1" 6 = (false, store0)
    ∧ (DB.create_rating false store0 "R1" "C1" "F1" 3).1 = true :=
  ⟨(rating_score_gate false store0 "R1" "C1" "F1" 6).1 (by norm_num),
    ((rating_score_gate false store0 "R1" "C1" "F1" 3).2
      (by simp [store0])).2 (by norm_num)⟩

/-- C5: a create request with a required field absent raises KeyError in
the handler before the store is touched, so the store is unchanged and
the response is the framework's failure (500), for POST /farmers and
POST /orders. -/
theorem missing_field_no_write (storeFail : Bool) (s : DB.Store)
    (fd : App.FarmerReq) (od : App.OrderReq) :
    ((fd.farmer_id = none ∨ fd.name = none ∨ fd.kyc_id = none) →
      App.create_farmer storeFail s fd = (App.Resp.keyError, s))
    ∧ ((od.order_id = none ∨ od.order_from = none ∨ od.from_id = none
        ∨ od.receiver = none ∨ od.receiver_id = none ∨ od.batch_id = none
        ∨ od.quantity = none ∨ od.price = none) →
      App.create_order storeFail s od = (App.Resp.keyError, s)) := by
  constructor
  · intro h
    rcases fd with ⟨f1, f2, f3, f4, f5⟩
    rcases f1 with _ | a <;> rcases f2 with _ | b <;> rcases f5 with _ | c <;>
      simp_all [App.create_farmer]
  · intro h
    rcases od with ⟨g1, g2, g3, g4, g5, g6, g7, g8⟩
    rcases g1 with _ | a1 <;> rcases g2 with _ | a2 <;> rcases g3 with _ | a3 <;>
      rcases g4 with _ | a4 <;> rcases g5 with _ | a5 <;> rcases g6 with _ | a6 <;>
      rcases g7 with _ | a7 <;> rcases g8 with _ | a8 <;>
      simp_all [App.create_order]

/-- Witness for missing_field_no_write: a farmer body without farmer_id
and an order body without price on the empty store. -/
theorem missing_field_no_write_check :
    App.create_farmer false store0 fd0 = (App.Resp.keyError, store0)
    ∧ App.create_order false store0 od0 = (App.Resp.keyError, store0) :=
  ⟨(missing_field_no_write false store0 fd0 od0).1 (Or.inl rfl),
    (missing_field_no_write false store0 fd0 od0).2
      (Or.inr (Or.inr (Or.inr (Or.inr (Or.inr (Or.inr (Or.inr rfl)))))))⟩

/-- C6: create_farmer and create_kyc report the outcome of the single
insert as a boolean (their codomain is Bool x Store, so no storage
exception can propagate): true exactly when the insert succeeded, and
false under any storage-layer failure. -/
theorem write_failure_boolean (storeFail : Bool) (s : DB.Store)
    (fid nm loc ct kid kyc_id doc : String) (now : Nat) :
    ((DB.create_farmer storeFail s fid nm loc ct kid).1 = true
      ↔ (DB.insertFarmer storeFail s ⟨fid, nm, loc, ct, kid⟩).1 = Except.ok ())
    ∧ ((DB.create_kyc storeFail s kyc_id doc now).1 = true
      ↔ (DB.insertKYC storeFail s ⟨kyc_id, doc, "Pending", now⟩).1 = Except.ok ())
    ∧ (storeFail = true →
        (DB.create_farmer storeFail s fid nm loc ct kid).1 = false
        ∧ (DB.create_kyc storeFail s kyc_id doc now).1 = false) := by
  refine ⟨?_, ?_, ?_⟩
  · unfold DB.create_farmer
    rcases hI : DB.insertFarmer storeFail s ⟨fid, nm, loc, ct, kid⟩ with ⟨e | u, s2⟩ <;>
      simp [hI]
  · unfold DB.create_kyc
    rcases hI : DB.insertKYC storeFail s ⟨kyc_id, doc, "Pending", now⟩ with ⟨e | u, s2⟩ <;>
      simp [hI]
  · intro hsf
    subst hsf
    constructor <;>
      simp [DB.create_farmer, DB.create_kyc, DB.insertFarmer, DB.insertKYC]

/-- Witness for write_failure_boolean: with the storage layer failing,
both writes report false. -/
theorem write_failure_boolean_check :
    (DB.create_farmer true store0 "F1" "A" "L" "P" "K1").1 = false
    ∧ (DB.create_kyc true store0 "K1" "D" 0).1 = false :=
  (write_failure_boolean true store0 "F1" "A" "L" "P" "K1" "K1" "D" 0).2.2 rfl

/-- C8: after a successful create (no opaque storage failure), reading
the entity back by its identifier returns the submitted field values
unchanged, for farmers (all fields submitted) and batches (submitted
fields plus the store-clock date and time and an unset status). -/
theorem create_then_get_roundtrip (s : DB.Store)
    (fid nm loc ct kid bid ty g bfid d t : String) :
    ((DB.create_farmer false s fid nm loc ct kid).1 = true →
      DB.get_farmer false (DB.create_farmer false s fid nm loc ct kid).2 fid
        = some ⟨fid, nm, loc, ct, kid⟩)
    ∧ ((DB.create_batch false s bid ty g bfid d t).1 = true →
      DB.get_batch false (DB.create_batch false s bid ty g bfid d t).2 bid
        = some ⟨bid, ty, g, bfid, d, t, none⟩) := by
  constructor
  · intro htrue
    by_cases hany : s.farmers.any (fun x => x.farmer_id = fid) = true
    · simp [DB.create_farmer, DB.insertFarmer, hany] at htrue
    · have hany2 : s.farmers.any (fun x => x.farmer_id = fid) = false :=
        Bool.eq_false_iff.mpr hany
      simp only [DB.create_farmer, DB.insertFarmer, hany2, Bool.false_eq_true,
        if_false, DB.get_farmer]
      simpa using head_filter_append_of_any_false
        (fun x => x.farmer_id = fid) s.farmers ⟨fid, nm, loc, ct, kid⟩ hany2
        (by simp)
  · intro htrue
    by_cases hany : s.batches.any (fun x => x.batch_id = bid) = true
    · simp [DB.create_batch, DB.insertBatch, hany] at htrue
    · have hany2 : s.batches.any (fun x => x.batch_id = bid) = false :=
        Bool.eq_false_iff.mpr hany
      simp only [DB.create_batch, DB.insertBatch, hany2, Bool.false_eq_true,
        if_false, DB.get_batch]
      simpa using head_filter_append_of_any_false
        (fun x => x.batch_id = bid) s.batches ⟨bid, ty, g, bfid, d, t, none⟩
        hany2 (by simp)

/-- Witness for create_then_get_roundtrip: create then read a farmer and
a batch on the empty store. -/
theorem create_then_get_roundtrip_check :
    DB.get_farmer false (DB.create_farmer false store0 "F1" "Alice" "L" "P" "K1").2 "F1"
      = some ⟨"F1", "Alice", "L", "P", "K1"⟩
    ∧ DB.get_batch false (DB.create_batch false store0 "B1" "Wheat" "G" "F1" "d" "t").2 "B1"
      = some ⟨"B1", "Wheat", "G", "F1", "d", "t", none⟩ :=
  ⟨(create_then_get_roundtrip store0 "F1" "Alice" "L" "P" "K1" "B1" "Wheat" "G" "F1" "d" "t").1
      (by decide),
    (create_then_get_roundtrip store0 "F1" "Alice" "L" "P" "K1" "B1" "Wheat" "G" "F1" "d" "t").2
      (by decide)⟩

/-- C10: get_farmer and get_batch return None both when the storage
layer fails and when no row matches, so at this interface a not-found
result is indistinguishable from a storage failure. -/
theorem get_null_ambiguous (s s2 : DB.Store) (fid bid : String) :
    DB.get_farmer true s fid = none
    ∧ ((∀ r ∈ s2.farmers, r.farmer_id ≠ fid) → DB.get_farmer false s2 fid = none)
    ∧ DB.get_batch true s bid = none
    ∧ ((∀ r ∈ s2.batches, r.batch_id ≠ bid) → DB.get_batch false s2 bid = none) := by
  refine ⟨by simp [DB.get_farmer], ?_, by simp [DB.get_batch], ?_⟩
  · intro hfresh
    have hfil : s2.farmers.filter (fun x => x.farmer_id = fid) = [] := by
      rw [List.filter_eq_nil_iff]
      intro x hx
      simpa using hfresh x hx
    simp [DB.get_farmer, hfil]
  · intro hfresh
    have hfil : s2.batches.filter (fun x => x.batch_id = bid) = [] := by
      rw [List.filter_eq_nil_iff]
      intro x hx
      simpa using hfresh x hx
    simp [DB.get_batch, hfil]

/-- Witness for get_null_ambiguous: a failing read on store1 and a
non-matching read on store1 both return None. -/
theorem get_null_ambiguous_check :
    DB.get_farmer true store1 "F1" = none
    ∧ DB.get_farmer false store1 "F1" = none
    ∧ DB.get_batch true store1 "B1" = none
    ∧ DB.get_batch false store1 "B1" = none :=
  ⟨(get_null_ambiguous store1 store1 "F1" "B1").1,
    (get_null_ambiguous store1 store1 "F1" "B1").2.1 (by decide),
    (get_null_ambiguous store1 store1 "F1" "B1").2.2.1,
    (get_null_ambiguous store1 store1 "F1" "B1").2.2.2 (by decide)⟩

/-- C2 counterexample: the gas price of the built transaction is the
constant 20 gwei, not the chain's gas price; on a chain whose gas price
is 1 gwei the built transaction does not carry the queried price, so the
claim (fixed gas limit, queried gas price, just-fetched nonce) fails. -/
theorem gas_price_not_queried :
    ¬ ((BC.build_transaction cfgOk chFix BC.ContractFn.registerUser).gas = 3000000
      ∧ (BC.build_transaction cfgOk chFix BC.ContractFn.registerUser).gasPrice
          = chFix.gasPriceQuery
      ∧ (BC.build_transaction cfgOk chFix BC.ContractFn.registerUser).nonce
          = chFix.txCount (cfgOk.defaultAddress.getD "")) := by
  intro h
  have h2 := h.2.1
  simp [BC.build_transaction, BC.toWei20Gwei, chFix] at h2

/-- C2 (amended): every mutating request builds its unsigned transaction
with the fixed gas limit 3000000, the fixed gas price 20 gwei =
20000000000 wei (not a queried price), and the account's transaction
count fetched at build time; when a key is configured, the first effect
of the pipeline is signing exactly that transaction. -/
theorem tx_build_fixed_price (cfg : BC.Config) (ch : BC.Chain)
    (fn : BC.ContractFn) (k : String) :
    (BC.build_transaction cfg ch fn).gas = 3000000
    ∧ (BC.build_transaction cfg ch fn).gasPrice = 20000000000
    ∧ (BC.build_transaction cfg ch fn).nonce
        = ch.txCount (cfg.defaultAddress.getD "")
    ∧ (cfg.privateKey = some k →
        (BC.handle_transaction cfg ch fn).2.head?
          = some (BC.Event.signed (BC.build_transaction cfg ch fn))) := by
  refine ⟨rfl, rfl, rfl, ?_⟩
  intro hk
  by_cases hs : ch.sendOk <;> by_cases hr : ch.receiptOk <;>
    simp [BC.handle_transaction, hk, hs, hr]

/-- Witness for tx_build_fixed_price at the concrete configuration with
a key. -/
theorem tx_build_fixed_price_check :
    (BC.handle_transaction cfgOk chFix BC.ContractFn.registerUser).2.head?
      = some (BC.Event.signed
          (BC.build_transaction cfgOk chFix BC.ContractFn.registerUser)) :=
  (tx_build_fixed_price cfgOk chFix BC.ContractFn.registerUser "key").2.2.2 rfl

/-- C3: a transfer request whose resolved from_address differs
case-insensitively from the crop's current on-ledger owner produces no
signing or submission effect and never succeeds; when it passes the
earlier gates (well-formed addresses, registered recipient, successful
ownership read) it is rejected with the 403 authorization error. -/
theorem transfer_not_owner_rejected (cfg : BC.Config) (led : BC.Ledger)
    (ch : BC.Chain) (oracle : BC.CallOracle) (id : Nat) (d : BC.TransferReq)
    (f : String) (hf : (d.from_address <|> cfg.defaultAddress) = some f)
    (hown : BC.lowerStr (led.crops id).owner ≠ BC.lowerStr f) :
    (BC.transfer_crop cfg led ch oracle id (some d)).2 = []
    ∧ (∀ r, (BC.transfer_crop cfg led ch oracle id (some d)).1 ≠ Except.ok r)
    ∧ (∀ t, d.to_address = some t → BC.is_address t = true →
        BC.is_address f = true → oracle.regCallOk = true →
        led.registered t = true → oracle.getCropOk id = true →
        (BC.transfer_crop cfg led ch oracle id (some d)).1
          = Except.error ("Only the owner can transfer this crop", 403)) := by
  rcases d with ⟨dto, dfrom⟩
  have hfr : (dfrom <|> cfg.defaultAddress) = some f := hf
  rcases dto with _ | t
  · refine ⟨rfl, ?_, ?_⟩
    · intro r h
      simp [BC.transfer_crop] at h
    · intro t2 ht
      exact absurd ht (by simp)
  · by_cases h1 : BC.is_address t <;>
      by_cases h5 : BC.is_address f <;>
      by_cases h2 : oracle.regCallOk <;>
      by_cases h3 : led.registered t <;>
      by_cases h4 : oracle.getCropOk id <;>
      refine ⟨?_, ?_, ?_⟩ <;>
      simp_all [BC.transfer_crop]

/-- Witness for transfer_not_owner_rejected: crop 0 of led0 is owned by
addrA, the request comes from addrB, all earlier gates pass, and the
response is the 403 with no effects. -/
theorem transfer_not_owner_rejected_check :
    (BC.transfer_crop cfgOk led0 chFix oracleOk 0 (some d0)).2 = []
    ∧ (BC.transfer_crop cfgOk led0 chFix oracleOk 0 (some d0)).1
        = Except.error ("Only the owner can transfer this crop", 403) := by
  have h := transfer_not_owner_rejected cfgOk led0 chFix oracleOk 0 d0 addrB
    (by decide) (by decide)
  exact ⟨h.1, h.2.2 addrA rfl (by decide) (by decide) rfl (by decide) rfl⟩

/-- The linear scan of get_crops_by_owner agrees with the spec-side
recursion at every bound. -/
theorem range_filterMap_ownedCropsSpec (led : BC.Ledger)
    (oracle : BC.CallOracle) (address : String) (n : Nat) :
    ((List.range n).filterMap (fun i =>
        if oracle.getCropOk i then
          if BC.lowerStr (led.crops i).owner = BC.lowerStr address
            then some (led.crops i) else none
        else none))
      = BC.ownedCropsSpec led oracle address n := by
  induction n with
  | zero => rfl
  | succ k ih =>
    rw [List.range_succ, List.filterMap_append, ih, BC.ownedCropsSpec]
    congr 1
    by_cases hk : oracle.getCropOk k <;>
      by_cases ho : BC.lowerStr (led.crops k).owner = BC.lowerStr address <;>
      simp [hk, ho]

/-- C4: when owner enumeration returns a list, that list is exactly the
crops with id below min(nextId, min(limit, 1000)) (limit defaulting to
100) whose read succeeds and whose owner equals the queried address
case-insensitively, total_found is its length, and with limit = 0 the
list is empty for every ledger state. -/
theorem owner_enumeration_scan (led : BC.Ledger) (oracle : BC.CallOracle)
    (address : String) (l : Option Int) (r : BC.OwnerCropsResp)
    (h : BC.get_crops_by_owner led oracle address l = Except.ok r) :
    r.crops = BC.ownedCropsSpec led oracle address
        (min led.nextId (min (l.getD 100) 1000).toNat)
    ∧ r.total_found = r.crops.length
    ∧ (l = some 0 → r.crops = []) := by
  by_cases haddr : BC.is_address address
  · by_cases hnext : oracle.nextIdCallOk
    · have hb : (min (led.nextId : Int) (min (l.getD 100) 1000)).toNat
          = min led.nextId (min (l.getD 100) 1000).toNat := by
        omega
      simp only [BC.get_crops_by_owner, haddr, hnext, not_true, if_false,
        Bool.not_eq_true, if_neg, reduceIte] at h
      rw [Except.ok.injEq] at h
      subst h
      refine ⟨?_, rfl, ?_⟩
      · rw [hb, range_filterMap_ownedCropsSpec]
      · intro hl
        subst hl
        simp [BC.ownedCropsSpec]
    · simp [BC.get_crops_by_owner, haddr, hnext] at h
  · simp [BC.get_crops_by_owner, haddr] at h

/-- Witness for owner_enumeration_scan: enumerating led0 for addrA with
limit 5 returns exactly crop 0. -/
theorem owner_enumeration_scan_check :
    (⟨addrA, [⟨0, "m0", addrA⟩], 1⟩ : BC.OwnerCropsResp).crops
      = BC.ownedCropsSpec led0 oracleOk addrA
          (min led0.nextId (min ((some (5 : Int)).getD 100) 1000).toNat)
    ∧ (⟨addrA, [⟨0, "m0", addrA⟩], 1⟩ : BC.OwnerCropsResp).total_found
        = (⟨addrA, [⟨0, "m0", addrA⟩], 1⟩ : BC.OwnerCropsResp).crops.length
    ∧ (some (5 : Int) = some 0 → (⟨addrA, [⟨0, "m0", addrA⟩], 1⟩ : BC.OwnerCropsResp).crops = []) :=
  owner_enumeration_scan led0 oracleOk addrA (some 5) ⟨addrA, [⟨0, "m0", addrA⟩], 1⟩
    (by decide)

/-- C7: whenever GET /crops/id returns a crop, its exists flag is true
exactly when the owner field of the ledger's tuple differs from the
all-zero address. -/
theorem crop_exists_iff_nonzero_owner (led : BC.Ledger)
    (oracle : BC.CallOracle) (id : Nat) (r : BC.CropInfo)
    (h : BC.get_crop led oracle id = Except.ok r) :
    (r.crop_exists = true ↔ (led.crops id).owner ≠ BC.zeroAddress) := by
  by_cases hc : oracle.getCropOk id
  · simp only [BC.get_crop, hc, not_true, Bool.not_eq_true, reduceIte] at h
    rw [Except.ok.injEq] at h
    subst h
    simp
  · simp [BC.get_crop, hc] at h

/-- Witness for crop_exists_iff_nonzero_owner: crop 1 of led0 has the
zero owner, so its exists flag is false. -/
theorem crop_exists_iff_nonzero_owner_check :
    ((⟨1, "", BC.zeroAddress, false⟩ : BC.CropInfo).crop_exists = true
      ↔ (led0.crops 1).owner ≠ BC.zeroAddress) :=
  crop_exists_iff_nonzero_owner led0 oracleOk 1 ⟨1, "", BC.zeroAddress, false⟩
    (by decide)

/-- C9: whenever POST /crops succeeds, the crop_id in the response is
the ledger's nextId value read before the transaction was built and
submitted (the receipt carries no id at all). -/
theorem create_crop_id_preread (cfg : BC.Config) (led : BC.Ledger)
    (ch : BC.Chain) (oracle : BC.CallOracle) (body : Option BC.CreateCropReq)
    (r : BC.CreateCropSuccess) (evs : List BC.Event)
    (h : BC.create_crop cfg led ch oracle body = (Except.ok r, evs)) :
    r.crop_id = led.nextId := by
  rcases body with _ | ⟨md, oa⟩
  · simp [BC.create_crop] at h
  · rcases md with _ | md
    · simp [BC.create_crop] at h
    · rcases hoa : oa <|> cfg.defaultAddress with _ | ow
      · simp [BC.create_crop, hoa] at h
      · by_cases h1 : BC.is_address ow <;>
          by_cases h2 : oracle.regCallOk <;>
          by_cases h3 : led.registered ow <;>
          by_cases h4 : oracle.nextIdCallOk <;>
          rcases hht : BC.handle_transaction cfg ch (BC.ContractFn.createCrop md)
            with ⟨e | t, evs2⟩ <;>
          simp_all [BC.create_crop]
        rw [← h.1]

/-- Witness for create_crop_id_preread: a successful creation on led0
reports crop_id 2 = led0.nextId. -/
theorem create_crop_id_preread_check :
    (⟨⟨"0xhash", 21000, 12⟩, 2, "wheat", addrA⟩ : BC.CreateCropSuccess).crop_id
      = led0.nextId :=
  create_crop_id_preread cfgOk led0 chFix oracleOk (some ⟨some "wheat", none⟩)
    ⟨⟨"0xhash", 21000, 12⟩, 2, "wheat", addrA⟩
    [BC.Event.signed ⟨addrA, 3000000, 20000000000, 7, BC.ContractFn.createCrop "wheat"⟩,
      BC.Event.submitted ⟨addrA, 3000000, 20000000000, 7, BC.ContractFn.createCrop "wheat"⟩]
    (by decide)

